import Mathlib

/-!
# LayerSync — Printer State Debouncer & Photo-Trigger Scheduler

Shallow embedding of the core logic of `src/controllers/timelapse_controller.js`
(the controller loaded by the entry point `src/index.js`) together with the
GoPro bridge's `snapPhoto` retry loop (`goproPythonBridge.js`).

Conventions of the embedding:
* JavaScript telemetry fields are `Option` values (`none` = field absent).
* The JavaScript `a || b` fallback chains treat `0` and `""` as falsy;
  they are embedded by `numOr` / `strOr`.
* Timestamps are natural numbers (milliseconds); the JS test
  `now - stateChangeTime > threshold` is embedded as
  `stateChangeTime + threshold < now`, which agrees with the JS semantics
  for every pair of naturals.
* Exceptions are embedded with `Except`; a `try`/`catch` becomes a `match`
  on the `Except` value.
-/

namespace LayerSync

/-- JavaScript `a || d` for an optional number: `0` and `undefined` are falsy. -/
def numOr (a : Option Nat) (d : Nat) : Nat :=
  match a with
  | some n => if n = 0 then d else n
  | none => d

/-- JavaScript `a || d` for an optional string: `""` and `undefined` are falsy. -/
def strOr (a : Option String) (d : String) : String :=
  match a with
  | some v => if v = "" then d else v
  | none => d

/-- The fields of an inbound telemetry record (`printData` in the controller)
that the core logic reads.  `ipcam_timelapse` is `printData.ipcam.timelapse`
(`none` when `ipcam` or `timelapse` is absent). -/
structure PrintData where
  ipcam_timelapse : Option String := none
  total_layer_num : Option Nat := none
  total_layers : Option Nat := none
  total_layers_num : Option Nat := none
  layer_num : Option Nat := none
  current_layer : Option Nat := none
  layer : Option Nat := none
  mc_state : Option String := none
  state : Option String := none
  print_state : Option String := none
  mc_print_stage : Option String := none
  command : Option String := none
  nozzle_temper : Option Nat := none
  bed_temper : Option Nat := none
  gcode_state : Option String := none
  print_type : Option String := none
deriving Repr, DecidableEq

/-- The module-level mutable state of the controller that
`handlePrinterStatusUpdate` reads and writes. -/
structure CtrlState where
  totalLayers : Nat
  currentLayer : Nat
  lastTriggerLayer : Int
  layerChangeTime : Nat
  photoTriggerDelay : Nat
  lastStableState : String
  stateChangeTime : Nat
  bambuTimelapseEnabled : Bool
deriving Repr, DecidableEq

/-- Initial values of the controller globals (startup taken as time 0):
`totalLayers = 0`, `currentLayer = 0`, `lastTriggerLayer = -1`,
`photoTriggerDelay = 800`, `lastStableState = 'UNKNOWN'`,
`bambuTimelapseEnabled = false`. -/
def initCtrlState : CtrlState :=
  { totalLayers := 0
    currentLayer := 0
    lastTriggerLayer := -1
    layerChangeTime := 0
    photoTriggerDelay := 800
    lastStableState := "UNKNOWN"
    stateChangeTime := 0
    bambuTimelapseEnabled := false }

/-- `const stateStabilityThreshold = 5000`. -/
def stateStabilityThreshold : Nat := 5000

/-- Timelapse-armed flag after one message: the flag is overwritten only when
`printData.ipcam.timelapse` is present (`=== 'enable'`); an absent field keeps
the previous value. -/
def effTimelapseEnabled (s : CtrlState) (m : PrintData) : Bool :=
  match m.ipcam_timelapse with
  | some v => v == "enable"
  | none => s.bambuTimelapseEnabled

/-- `newTotalLayers = printData.total_layer_num || printData.total_layers ||
printData.total_layers_num || totalLayers || 0` (the final `|| 0` is the
identity on naturals). -/
def effNewTotalLayers (s : CtrlState) (m : PrintData) : Nat :=
  numOr m.total_layer_num (numOr m.total_layers (numOr m.total_layers_num s.totalLayers))

/-- `newCurrentLayer = printData.layer_num || printData.current_layer ||
printData.layer || currentLayer || 0`. -/
def effNewCurrentLayer (s : CtrlState) (m : PrintData) : Nat :=
  numOr m.layer_num (numOr m.current_layer (numOr m.layer s.currentLayer))

/-- `if (printData.total_layer_num && printData.total_layer_num > 0)
totalLayers = printData.total_layer_num` — the stored total is overwritten
only by a present, positive `total_layer_num`. -/
def effTotalLayers (s : CtrlState) (m : PrintData) : Nat :=
  match m.total_layer_num with
  | some n => if 0 < n then n else s.totalLayers
  | none => s.totalLayers

/-- `if (printData.layer_num && printData.layer_num > 0)
currentLayer = printData.layer_num`. -/
def effCurrentLayer (s : CtrlState) (m : PrintData) : Nat :=
  match m.layer_num with
  | some n => if 0 < n then n else s.currentLayer
  | none => s.currentLayer

/-- `mcState = printData.mc_state || printData.state || printData.print_state ||
printData.mc_print_stage || (printData.command === 'push_status' ? 'RUNNING' :
'UNKNOWN')`. -/
def effMcState (m : PrintData) : String :=
  strOr m.mc_state (strOr m.state (strOr m.print_state (strOr m.mc_print_stage
    (if m.command == some "push_status" then "RUNNING" else "UNKNOWN"))))

/-- `nozzleTemp = printData.nozzle_temper || 0`. -/
def effNozzleTemp (m : PrintData) : Nat := numOr m.nozzle_temper 0

/-- `bedTemp = printData.bed_temper || 0`. -/
def effBedTemp (m : PrintData) : Nat := numOr m.bed_temper 0

/-- `gcodeState = printData.gcode_state || ''`. -/
def effGcodeState (m : PrintData) : String := strOr m.gcode_state ""

/-- `printType = printData.print_type || ''`. -/
def effPrintType (m : PrintData) : String := strOr m.print_type ""

/-- The state-classification chain of `handlePrinterStatusUpdate`
(the `if`/`else if` ladder assigning `newState`), on the already-extracted
local values. -/
def classify (gcodeState printType mcState : String)
    (newCurrentLayer newTotalLayers nozzleTemp bedTemp : Nat) : String :=
  if gcodeState = "FINISH" ∨ printType = "idle" then "FINISHED"
  else if 0 < newCurrentLayer ∧ newCurrentLayer < newTotalLayers then "PRINTING"
  else if printType = "idle" ∨ mcState = "IDLE" then "IDLE"
  else if 150 < nozzleTemp ∨ 60 < bedTemp then "HEATING"
  else if mcState = "RUNNING" ∧ 50 < nozzleTemp then "STANDBY"
  else "STANDBY"

/-- The stability check guarding the accepted state: the accepted state is
replaced by `newState` only when `newState` differs from it and
`now - stateChangeTime > stateStabilityThreshold`, where `stateChangeTime`
is the time of the last accepted-state change.  Returns the new
`(lastStableState, stateChangeTime)` pair. -/
def debounceStep (lastStableState : String) (stateChangeTime : Nat)
    (newState : String) (now : Nat) : String × Nat :=
  if newState ≠ lastStableState then
    if stateChangeTime + stateStabilityThreshold < now then (newState, now)
    else (lastStableState, stateChangeTime)
  else (lastStableState, stateChangeTime)

/-- A photo trigger scheduled by `setTimeout(..., photoTriggerDelay)`:
the layer it was scheduled for and the earliest time the timer callback
can run. -/
structure ScheduledTrigger where
  layer : Nat
  fireAt : Nat
deriving Repr, DecidableEq

/-- One call of `handlePrinterStatusUpdate(payload)` at time `now` with
`goproBLE.ready()` equal to `goproReady`: returns the updated controller
state and the photo trigger scheduled by this call, if any. -/
def handlePrinterStatusUpdate (s : CtrlState) (m : PrintData) (now : Nat)
    (goproReady : Bool) : CtrlState × Option ScheduledTrigger :=
  let enabled := effTimelapseEnabled s m
  let totalLayers' := effTotalLayers s m
  let currentLayer' := effCurrentLayer s m
  let newState := classify (effGcodeState m) (effPrintType m) (effMcState m)
    (effNewCurrentLayer s m) (effNewTotalLayers s m) (effNozzleTemp m) (effBedTemp m)
  let stable := debounceStep s.lastStableState s.stateChangeTime newState now
  let base : CtrlState :=
    { s with
      bambuTimelapseEnabled := enabled
      totalLayers := totalLayers'
      currentLayer := currentLayer'
      lastStableState := stable.1
      stateChangeTime := stable.2 }
  if goproReady ∧ enabled ∧ stable.1 = "PRINTING" ∧ 0 < currentLayer'
      ∧ (currentLayer' : Int) ≠ s.lastTriggerLayer then
    ({ base with lastTriggerLayer := (currentLayer' : Int), layerChangeTime := now },
     some ⟨currentLayer', now + s.photoTriggerDelay⟩)
  else if goproReady ∧ ¬enabled ∧ stable.1 = "PRINTING" ∧ 0 < currentLayer'
      ∧ (currentLayer' : Int) ≠ s.lastTriggerLayer then
    ({ base with lastTriggerLayer := (currentLayer' : Int), layerChangeTime := now }, none)
  else if ¬goproReady ∧ stable.1 = "PRINTING" ∧ 0 < currentLayer'
      ∧ (currentLayer' : Int) ≠ s.lastTriggerLayer then
    ({ base with lastTriggerLayer := (currentLayer' : Int), layerChangeTime := now }, none)
  else (base, none)

/-- One inbound telemetry delivery: the message, its arrival time, and the
value of `goproBLE.ready()` while it is processed. -/
structure TraceEvent where
  msg : PrintData
  now : Nat
  ready : Bool
deriving Repr

/-- Process a list of telemetry deliveries in arrival order, collecting every
scheduled photo trigger. -/
def runTrace (s : CtrlState) : List TraceEvent → CtrlState × List ScheduledTrigger
  | [] => (s, [])
  | e :: rest =>
    let step := handlePrinterStatusUpdate s e.msg e.now e.ready
    let tail := runTrace step.1 rest
    (tail.1, step.2.toList ++ tail.2)

/-!
## GoPro bridge: `snapPhoto` and the shutter trigger

`snapPhoto(maxRetries)` (goproPythonBridge) loops `attempt = 1..maxRetries`;
each iteration issues one `take_photo` command.  A successful command returns
`true` immediately; a failed command waits a fixed 1000 ms when more attempts
remain, and on the last attempt throws
`All photo attempts failed. Last error: ...`.  After the loop the function
would `return false`.

The outcome of the `attempt`-th `take_photo` command is supplied by the
environment as `ok attempt`.  The embedding returns the function result
(`Except`: `error` = thrown exception), the number of `take_photo` commands
issued, and the list of inter-attempt backoff waits in milliseconds.
-/

/-- The `snapPhoto` loop body, recursing on the number of remaining loop
iterations; `attempt` is the current value of the loop counter.
`remaining = 0` means the loop condition `attempt <= maxRetries` failed, so
control falls through to the trailing `return false`. -/
def snapPhotoGo (ok : Nat → Bool) : Nat → Nat → Except String Bool × Nat × List Nat
  | _, 0 => (Except.ok false, 0, [])
  | attempt, r + 1 =>
    if ok attempt then (Except.ok true, 1, [])
    else if r = 0 then (Except.error "All photo attempts failed", 1, [])
    else
      let rest := snapPhotoGo ok (attempt + 1) r
      (rest.1, rest.2.1 + 1, 1000 :: rest.2.2)

/-- `snapPhoto(maxRetries)`: run the attempt loop from `attempt = 1`. -/
def snapPhoto (ok : Nat → Bool) (maxRetries : Nat) : Except String Bool × Nat × List Nat :=
  snapPhotoGo ok 1 maxRetries

/-- Observable outcome of one `triggerGoProShutter` call: the final
`lastGoProStatus` string, the number of `take_photo` commands issued, and the
number of `attemptBusyRecovery` calls made. -/
structure TriggerOutcome where
  lastGoProStatus : String
  captureCalls : Nat
  recoveryCalls : Nat
deriving Repr, DecidableEq

/-- `triggerGoProShutter(false)` (the layer-trigger path) with
`goproBLE.ready() = ready` and `bambuTimelapseEnabled = enabled` at fire time.
The status probe and the fixed waits inside the function affect timing only;
the `take_photo` outcomes are `ok`, and `recoveryOk` tells whether the single
`attemptBusyRecovery` call would succeed (its failure is caught and logged,
leaving the status string unchanged).  Every exception raised inside the
function body is caught by the function's own `try`/`catch`, so the call
always returns an outcome and never propagates an exception to its caller. -/
def triggerGoProShutter (ready enabled : Bool) (layer : Nat) (ok : Nat → Bool)
    (recoveryOk : Bool) : TriggerOutcome :=
  if !ready then
    { lastGoProStatus := "🛑 BLE not connected to GoPro yet."
      captureCalls := 0
      recoveryCalls := 0 }
  else if !enabled then
    { lastGoProStatus := "🎬 Bambu Lab timelapse is DISABLED - photo skipped"
      captureCalls := 0
      recoveryCalls := 0 }
  else
    let snap := snapPhoto ok 3
    match snap.1 with
    | Except.ok _ =>
      { lastGoProStatus :=
          "✅ Success: Photo captured for Layer " ++ toString layer ++ " Trigger."
        captureCalls := snap.2.1
        recoveryCalls := 0 }
    | Except.error msg =>
      let _ := recoveryOk
      { lastGoProStatus := "🛑 BLE snap failed: " ++ msg
        captureCalls := snap.2.1
        recoveryCalls := 1 }

/-!
## The specification's classifier chain (for the refinement claim C3)

`classifySpec` follows the wording of spec §4.2 literally: five rules, first
match wins, with the explicit finish marker being the vendor job-finished
token (`gcode_state === 'FINISH'`) and the explicit idle marker being the
vendor idle tokens (`print_type === 'idle'` or `mc_state === 'IDLE'`).
`classifySpecAmended` is the same chain with rule 1 widened the way the
source actually behaves: the first rule also fires on the idle print-type
token and still yields `Finished`.
-/

/-- The classifier chain exactly as spec §4.2 words it. -/
def classifySpec (gcodeState printType mcState : String)
    (cur tot nozzleTemp bedTemp : Nat) : String :=
  if gcodeState = "FINISH" then "FINISHED"
  else if 0 < cur ∧ cur < tot then "PRINTING"
  else if printType = "idle" ∨ mcState = "IDLE" then "IDLE"
  else if 150 < nozzleTemp ∨ 60 < bedTemp then "HEATING"
  else "STANDBY"

/-- The claim's chain amended at rule 1: the finish rule fires on the explicit
finish marker or on the idle print-type token, both yielding `Finished`. -/
def classifySpecAmended (gcodeState printType mcState : String)
    (cur tot nozzleTemp bedTemp : Nat) : String :=
  if gcodeState = "FINISH" ∨ printType = "idle" then "FINISHED"
  else if 0 < cur ∧ cur < tot then "PRINTING"
  else if printType = "idle" ∨ mcState = "IDLE" then "IDLE"
  else if 150 < nozzleTemp ∨ 60 < bedTemp then "HEATING"
  else "STANDBY"

/-!
## Basic lemmas about one `handlePrinterStatusUpdate` step
-/

lemma handle_bambu (s : CtrlState) (m : PrintData) (now : Nat) (r : Bool) :
    (handlePrinterStatusUpdate s m now r).1.bambuTimelapseEnabled = effTimelapseEnabled s m := by
  simp only [handlePrinterStatusUpdate]
  split_ifs <;> rfl

lemma handle_currentLayer (s : CtrlState) (m : PrintData) (now : Nat) (r : Bool) :
    (handlePrinterStatusUpdate s m now r).1.currentLayer = effCurrentLayer s m := by
  simp only [handlePrinterStatusUpdate]
  split_ifs <;> rfl

lemma handle_totalLayers (s : CtrlState) (m : PrintData) (now : Nat) (r : Bool) :
    (handlePrinterStatusUpdate s m now r).1.totalLayers = effTotalLayers s m := by
  simp only [handlePrinterStatusUpdate]
  split_ifs <;> rfl

lemma handle_photoTriggerDelay (s : CtrlState) (m : PrintData) (now : Nat) (r : Bool) :
    (handlePrinterStatusUpdate s m now r).1.photoTriggerDelay = s.photoTriggerDelay := by
  simp only [handlePrinterStatusUpdate]
  split_ifs <;> rfl

lemma handle_lastStableState (s : CtrlState) (m : PrintData) (now : Nat) (r : Bool) :
    (handlePrinterStatusUpdate s m now r).1.lastStableState
      = (debounceStep s.lastStableState s.stateChangeTime
          (classify (effGcodeState m) (effPrintType m) (effMcState m)
            (effNewCurrentLayer s m) (effNewTotalLayers s m) (effNozzleTemp m) (effBedTemp m))
          now).1 := by
  simp only [handlePrinterStatusUpdate]
  split_ifs <;> rfl

/-- Every step either leaves `lastTriggerLayer` unchanged and schedules
nothing, or records the updated current layer in `lastTriggerLayer` — and the
latter happens only when that layer differs from the previous
`lastTriggerLayer`. -/
lemma handle_ltl_cases (s : CtrlState) (m : PrintData) (now : Nat) (r : Bool) :
    ((handlePrinterStatusUpdate s m now r).1.lastTriggerLayer = s.lastTriggerLayer
      ∧ (handlePrinterStatusUpdate s m now r).2 = none)
    ∨ ((handlePrinterStatusUpdate s m now r).1.lastTriggerLayer = (effCurrentLayer s m : Int)
      ∧ (effCurrentLayer s m : Int) ≠ s.lastTriggerLayer) := by
  simp only [handlePrinterStatusUpdate]
  split_ifs with h1 h2 h3
  · exact Or.inr ⟨rfl, h1.2.2.2.2⟩
  · exact Or.inr ⟨rfl, h2.2.2.2.2⟩
  · exact Or.inr ⟨rfl, h3.2.2.2⟩
  · exact Or.inl ⟨rfl, rfl⟩

/-- A message whose (updated) current layer equals `lastTriggerLayer`
schedules nothing and leaves `lastTriggerLayer` unchanged. -/
lemma handle_no_fire_of_ltl (s : CtrlState) (m : PrintData) (now : Nat) (r : Bool)
    (h : s.lastTriggerLayer = (effCurrentLayer s m : Int)) :
    (handlePrinterStatusUpdate s m now r).2 = none
    ∧ (handlePrinterStatusUpdate s m now r).1.lastTriggerLayer = s.lastTriggerLayer := by
  simp only [handlePrinterStatusUpdate]
  split_ifs with h1 h2 h3
  · exact absurd h.symm h1.2.2.2.2
  · exact absurd h.symm h2.2.2.2.2
  · exact absurd h.symm h3.2.2.2
  · exact ⟨rfl, rfl⟩

/-- A scheduled trigger always carries the updated current layer and a fire
time a full `photoTriggerDelay` after the processing time, and it is only
produced when the camera is ready, the timelapse flag is on, the accepted
state is `PRINTING`, and the layer is new. -/
lemma handle_fire_shape (s : CtrlState) (m : PrintData) (now : Nat) (r : Bool)
    (t : ScheduledTrigger) (h : (handlePrinterStatusUpdate s m now r).2 = some t) :
    t.layer = effCurrentLayer s m ∧ t.fireAt = now + s.photoTriggerDelay
    ∧ r = true ∧ effTimelapseEnabled s m = true
    ∧ 0 < effCurrentLayer s m
    ∧ (effCurrentLayer s m : Int) ≠ s.lastTriggerLayer
    ∧ (handlePrinterStatusUpdate s m now r).1.lastTriggerLayer = (effCurrentLayer s m : Int) := by
  have h0 := h
  have hcase := handle_ltl_cases s m now r
  simp only [handlePrinterStatusUpdate] at h
  split_ifs at h with h1
  obtain rfl : (⟨effCurrentLayer s m, now + s.photoTriggerDelay⟩ : ScheduledTrigger) = t :=
    Option.some_injective _ h
  refine ⟨rfl, rfl, by simpa using h1.1, by simpa using h1.2.1,
    h1.2.2.2.1, h1.2.2.2.2, ?_⟩
  rcases hcase with ⟨_, hnone⟩ | ⟨hset, _⟩
  · rw [h0] at hnone
    exact absurd hnone (by simp)
  · exact hset

lemma effCurrentLayer_of_layer_num (s : CtrlState) (m : PrintData) (L : Nat)
    (hm : m.layer_num = some L) (hL : 0 < L) : effCurrentLayer s m = L := by
  unfold effCurrentLayer
  rw [hm]
  simp [hL]

/-!
## C1 — at-most-once trigger per layer

The controller keeps only the single scalar `lastTriggerLayer`, so a layer
number that reappears after an intervening different layer is treated as a
new edge and re-fires.  The claim's universal at-most-once property is
therefore false; what does hold is at-most-once per run of telemetry that
keeps reporting the same layer number.
-/

/-- With `lastTriggerLayer` already equal to the common reported layer, a
trace whose every message carries `layer_num = L` schedules nothing. -/
lemma runTrace_no_fire_same_layer (L : Nat) (hL : 0 < L) :
    ∀ (evs : List TraceEvent) (s : CtrlState),
      (∀ e ∈ evs, e.msg.layer_num = some L) →
      s.lastTriggerLayer = (L : Int) →
      (runTrace s evs).2 = [] := by
  intro evs
  induction evs with
  | nil => intro s _ _; rfl
  | cons e rest ih =>
    intro s hall hltl
    have hm : e.msg.layer_num = some L := hall e (List.mem_cons_self e rest)
    have hcur : effCurrentLayer s e.msg = L := effCurrentLayer_of_layer_num s e.msg L hm hL
    have hno := handle_no_fire_of_ltl s e.msg e.now e.ready (by rw [hcur, hltl])
    show ((handlePrinterStatusUpdate s e.msg e.now e.ready).2.toList
        ++ (runTrace (handlePrinterStatusUpdate s e.msg e.now e.ready).1 rest).2) = []
    rw [hno.1]
    simp only [Option.toList_none, List.nil_append]
    exact ih _ (fun e' he' => hall e' (List.mem_cons_of_mem e he')) (by rw [hno.2, hltl])

/-- Claim C1, counterexample: starting from the initial controller state, the
telemetry sequence reporting layers `1, 2, 1` (armed, camera ready, totals
known, all classified and accepted as `PRINTING`) schedules a photo trigger
for layer `1` twice — the second report of layer `1` arrives after the
intervening layer `2` and re-fires.  This refutes "fire is invoked for `L` at
most once ... even if `L` reappears after an intervening different layer
number" at an explicit input. -/
theorem trigger_refire_counterexample :
    (runTrace initCtrlState
      [⟨{ layer_num := some 1, total_layer_num := some 100,
          ipcam_timelapse := some "enable" }, 6000, true⟩,
       ⟨{ layer_num := some 2 }, 6100, true⟩,
       ⟨{ layer_num := some 1 }, 6200, true⟩]).2
      = [⟨1, 6800⟩, ⟨2, 6900⟩, ⟨1, 7000⟩]
    ∧ ((runTrace initCtrlState
      [⟨{ layer_num := some 1, total_layer_num := some 100,
          ipcam_timelapse := some "enable" }, 6000, true⟩,
       ⟨{ layer_num := some 2 }, 6100, true⟩,
       ⟨{ layer_num := some 1 }, 6200, true⟩]).2.filter
        (fun t => t.layer == 1)).length = 2 := by
  decide

/-- Claim C1 as amended: duplicate telemetry is de-duplicated only against
the one most recently recorded layer, so the at-most-once guarantee holds per
run of messages reporting one layer number.  For every start state and every
telemetry trace all of whose messages report the same positive layer number
`L`, at most one photo trigger is scheduled in the whole trace. -/
theorem trigger_at_most_once_same_layer (s : CtrlState) (L : Nat) (evs : List TraceEvent)
    (hL : 0 < L) (hall : ∀ e ∈ evs, e.msg.layer_num = some L) :
    (runTrace s evs).2.length ≤ 1 := by
  induction evs generalizing s with
  | nil => simp [runTrace]
  | cons e rest ih =>
    have hm : e.msg.layer_num = some L := hall e (List.mem_cons_self e rest)
    have hcur : effCurrentLayer s e.msg = L := effCurrentLayer_of_layer_num s e.msg L hm hL
    have hrest : ∀ e' ∈ rest, e'.msg.layer_num = some L :=
      fun e' he' => hall e' (List.mem_cons_of_mem e he')
    show ((handlePrinterStatusUpdate s e.msg e.now e.ready).2.toList
        ++ (runTrace (handlePrinterStatusUpdate s e.msg e.now e.ready).1 rest).2).length ≤ 1
    rcases handle_ltl_cases s e.msg e.now e.ready with ⟨_, hnone⟩ | ⟨hset, _⟩
    · rw [hnone]
      simpa using ih _ hrest
    · have htail : (runTrace (handlePrinterStatusUpdate s e.msg e.now e.ready).1 rest).2 = [] :=
        runTrace_no_fire_same_layer L hL rest _ hrest (by rw [hset, hcur])
      rw [htail]
      simp only [List.append_nil, List.length_append, List.length_nil, Nat.add_zero]
      cases (handlePrinterStatusUpdate s e.msg e.now e.ready).2 <;> simp

/-- Witness for the amended C1 theorem at a concrete trace: two duplicate
reports of layer `2` schedule at most one trigger. -/
theorem trigger_at_most_once_same_layer_witness :
    (runTrace initCtrlState
      [⟨{ layer_num := some 2 }, 100, true⟩,
       ⟨{ layer_num := some 2 }, 200, true⟩]).2.length ≤ 1 :=
  trigger_at_most_once_same_layer initCtrlState 2
    [⟨{ layer_num := some 2 }, 100, true⟩, ⟨{ layer_num := some 2 }, 200, true⟩]
    (by decide) (by decide)

/-!
## C2 — debounce correctness

The source guards accepted-state changes with
`now - stateChangeTime > stateStabilityThreshold`, where `stateChangeTime`
is the time of the last *accepted-state change* — the candidate's own dwell
time is never tracked.  Consequently a candidate seen for the very first
time is promoted immediately whenever the accepted state is older than the
threshold, which contradicts both the claim and the code's own comment
("Only update state if it's been stable for a while") and its log line
("State has been different long enough"), which after the assignment even
reports "stable for 0ms".
-/

/-- Claim C2, evaluation at the failing input: starting from the initial
state, an empty message at `t = 5001` establishes accepted state `STANDBY`;
the subsequent candidate sequence `[A, B, A, B, A]`
(`A = STANDBY` via empty messages, `B = HEATING` via `nozzle_temper = 200`)
at `t = 10002 .. 10402` with 100 ms inter-arrival gaps — far below the
5000 ms dwell threshold — flips the accepted state to `HEATING` on `B`'s
first appearance, while the claim requires it to stay `STANDBY`. -/
theorem debounce_oscillation_promotes :
    (runTrace initCtrlState [⟨{}, 5001, false⟩]).1.lastStableState = "STANDBY"
    ∧ (runTrace initCtrlState
        [⟨{}, 5001, false⟩,
         ⟨{}, 10002, false⟩,
         ⟨{ nozzle_temper := some 200 }, 10102, false⟩,
         ⟨{}, 10202, false⟩,
         ⟨{ nozzle_temper := some 200 }, 10302, false⟩,
         ⟨{}, 10402, false⟩]).1.lastStableState = "HEATING" := by
  decide

/-!
## C3 — classifier priority chain

The source's first rule is `gcode_state === 'FINISH' || print_type === 'idle'
→ FINISHED`: the idle print-type token is consumed by the *finish* rule, not
by the idle rule the claim puts third.  On a snapshot whose only signal is
`print_type = 'idle'`, the claim's chain yields `Idle` while the code yields
`FINISHED`.
-/

/-- Claim C3, counterexample: for the snapshot with `print_type = 'idle'`
and no other signals (no finish token, zero layers, cold temperatures), the
source classifier returns `FINISHED` whereas the chain as claimed (rule 1 on
the explicit finish token only, rule 3 on the idle marker) returns `IDLE`. -/
theorem classify_idle_token_counterexample :
    classify "" "idle" "UNKNOWN" 0 0 0 0 = "FINISHED"
    ∧ classifySpec "" "idle" "UNKNOWN" 0 0 0 0 = "IDLE"
    ∧ classify "" "idle" "UNKNOWN" 0 0 0 0 ≠ classifySpec "" "idle" "UNKNOWN" 0 0 0 0 := by
  decide

/-- Claim C3 as amended: the classifier is the claimed first-match-wins chain
with rule 1 widened to `gcode_state = FINISH OR print_type = idle → Finished`
(so the idle print-type token produces `Finished`, and rule 3's idle marker is
reached only through `mc_state = IDLE`); rules 2, 4, 5 are exactly as claimed
(the source's extra `RUNNING`-with-warm-nozzle branch also returns `Standby`,
so it coincides with rule 5).  The source classifier agrees with this amended
chain on every input. -/
theorem classify_matches_amended_chain :
    ∀ (gcodeState printType mcState : String)
      (cur tot nozzleTemp bedTemp : Nat),
      classify gcodeState printType mcState cur tot nozzleTemp bedTemp
        = classifySpecAmended gcodeState printType mcState cur tot nozzleTemp bedTemp := by
  intro gcodeState printType mcState cur tot nozzleTemp bedTemp
  unfold classify classifySpecAmended
  split_ifs <;> rfl

/-!
## C4 — non-overwrite by absent or zero layer fields
-/

/-- Fixture: mid-print layer data with nothing else set. -/
def midPrintState : CtrlState :=
  { initCtrlState with currentLayer := 7, totalLayers := 50 }

/-- Fixture: accepted state `PRINTING` with a known total, timelapse off. -/
def printingDisarmedState : CtrlState :=
  { initCtrlState with lastStableState := "PRINTING", totalLayers := 100 }

/-- Fixture: accepted state `PRINTING` with a known total, timelapse armed. -/
def printingArmedState : CtrlState :=
  { printingDisarmedState with bambuTimelapseEnabled := true }

/-- Fixture: initial state with the timelapse flag armed. -/
def armedIdleState : CtrlState :=
  { initCtrlState with bambuTimelapseEnabled := true }

/-- Claim C4: a message whose `layer_num` is absent or zero leaves a
previously observed positive `currentLayer` unchanged, and a message whose
`total_layer_num` is absent or zero leaves a previously known positive
`totalLayers` unchanged. -/
theorem absent_or_zero_layer_preserved (s : CtrlState) (m : PrintData) (now : Nat) (r : Bool) :
    ((m.layer_num = none ∨ m.layer_num = some 0) → 0 < s.currentLayer →
      (handlePrinterStatusUpdate s m now r).1.currentLayer = s.currentLayer)
    ∧ ((m.total_layer_num = none ∨ m.total_layer_num = some 0) → 0 < s.totalLayers →
      (handlePrinterStatusUpdate s m now r).1.totalLayers = s.totalLayers) := by
  constructor
  · intro habs _
    rw [handle_currentLayer]
    unfold effCurrentLayer
    rcases habs with h | h <;> simp [h]
  · intro habs _
    rw [handle_totalLayers]
    unfold effTotalLayers
    rcases habs with h | h <;> simp [h]

/-- Witness for C4: a concrete state and message exercising both conjuncts
(absent `layer_num` with stored layer 7; `total_layer_num = 0` with stored
total 50). -/
theorem absent_or_zero_layer_preserved_witness :
    (handlePrinterStatusUpdate midPrintState
      { total_layer_num := some 0 } 42 false).1.currentLayer = 7
    ∧ (handlePrinterStatusUpdate midPrintState
      { total_layer_num := some 0 } 42 false).1.totalLayers = 50 :=
  ⟨(absent_or_zero_layer_preserved midPrintState
      { total_layer_num := some 0 } 42 false).1 (Or.inl rfl) (by decide),
   (absent_or_zero_layer_preserved midPrintState
      { total_layer_num := some 0 } 42 false).2 (Or.inr rfl) (by decide)⟩

/-!
## C5 — gating by the armed flag
-/

/-- Claim C5: when the timelapse flag is (still) disabled after processing a
message, no photo trigger is scheduled by that message; if the camera is
ready, the accepted state is `PRINTING` and a new positive layer was
observed, the layer is nevertheless recorded in `lastTriggerLayer` (so a
later re-arm does not fire for it); and the shutter routine itself issues
zero capture commands whenever the flag is off at fire time. -/
theorem gating_disarmed (s : CtrlState) (m : PrintData) (now : Nat) (r : Bool)
    (hdis : effTimelapseEnabled s m = false) :
    (handlePrinterStatusUpdate s m now r).2 = none
    ∧ (r = true →
        (handlePrinterStatusUpdate s m now r).1.lastStableState = "PRINTING" →
        0 < effCurrentLayer s m →
        (effCurrentLayer s m : Int) ≠ s.lastTriggerLayer →
        (handlePrinterStatusUpdate s m now r).1.lastTriggerLayer = (effCurrentLayer s m : Int))
    ∧ (∀ (rdy : Bool) (L : Nat) (ok : Nat → Bool) (rec : Bool),
        (triggerGoProShutter rdy false L ok rec).captureCalls = 0) := by
  refine ⟨?_, ?_, ?_⟩
  · rcases handle_ltl_cases s m now r with ⟨_, hnone⟩ | ⟨_, _⟩
    · exact hnone
    · cases hfire : (handlePrinterStatusUpdate s m now r).2 with
      | none => rfl
      | some t =>
        have := (handle_fire_shape s m now r t hfire).2.2.2.1
        rw [hdis] at this
        exact absurd this (by simp)
  · intro hr hstable hpos hne
    have hst := handle_lastStableState s m now r
    rw [hstable] at hst
    simp only [handlePrinterStatusUpdate]
    split_ifs with h1 h2 h3
    · rfl
    · rfl
    · rfl
    · exfalso
      apply h2
      refine ⟨by simp [hr], by simp [hdis], hst.symm, hpos, hne⟩
  · intro rdy L ok rec
    cases rdy <;> rfl

/-- Witness for C5 at a concrete disarmed state: ready camera, accepted
`PRINTING`, fresh layer 3 — nothing is scheduled, but the layer is marked. -/
theorem gating_disarmed_witness :
    (handlePrinterStatusUpdate printingDisarmedState
      { layer_num := some 3 } 50 true).2 = none
    ∧ (handlePrinterStatusUpdate printingDisarmedState
      { layer_num := some 3 } 50 true).1.lastTriggerLayer = (3 : Int) :=
  ⟨(gating_disarmed printingDisarmedState
      { layer_num := some 3 } 50 true (by decide)).1,
   (gating_disarmed printingDisarmedState
      { layer_num := some 3 } 50 true (by decide)).2.1 rfl (by decide) (by decide) (by decide)⟩

/-!
## C6 — settle delay honored
-/

/-- Claim C6: every scheduled trigger fires no earlier than
`fireAt = now + photoTriggerDelay` where `now` is the time the edge was
accepted, the delay is carried unchanged through every processing step, and
its startup default is 800 ms. -/
theorem settle_delay_honored (s : CtrlState) (m : PrintData) (now : Nat) (r : Bool)
    (t : ScheduledTrigger) (h : (handlePrinterStatusUpdate s m now r).2 = some t) :
    t.fireAt = now + s.photoTriggerDelay
    ∧ (handlePrinterStatusUpdate s m now r).1.photoTriggerDelay = s.photoTriggerDelay
    ∧ initCtrlState.photoTriggerDelay = 800 :=
  ⟨(handle_fire_shape s m now r t h).2.1, handle_photoTriggerDelay s m now r, rfl⟩

/-- Witness for C6: a concrete armed, ready, printing state scheduling a
trigger for layer 1 at time 6000, whose fire time is 6000 + 800. -/
theorem settle_delay_honored_witness :
    (⟨1, 6800⟩ : ScheduledTrigger).fireAt = 6000 + printingArmedState.photoTriggerDelay :=
  (settle_delay_honored printingArmedState
    { layer_num := some 1 } 6000 true ⟨1, 6800⟩ (by decide)).1

/-!
## C9 — armed-flag carry-forward
-/

/-- Claim C9: a message in which `ipcam.timelapse` is absent preserves the
previous `bambuTimelapseEnabled` value; absence never resets it. -/
theorem timelapse_flag_carry_forward (s : CtrlState) (m : PrintData) (now : Nat) (r : Bool)
    (h : m.ipcam_timelapse = none) :
    (handlePrinterStatusUpdate s m now r).1.bambuTimelapseEnabled = s.bambuTimelapseEnabled := by
  rw [handle_bambu]
  unfold effTimelapseEnabled
  rw [h]

/-- Witness for C9: from an armed state, a message without the `ipcam`
block leaves the flag armed. -/
theorem timelapse_flag_carry_forward_witness :
    (handlePrinterStatusUpdate armedIdleState
      { layer_num := some 4 } 9 false).1.bambuTimelapseEnabled
      = armedIdleState.bambuTimelapseEnabled :=
  timelapse_flag_carry_forward armedIdleState { layer_num := some 4 } 9 false rfl

/-!
## Lemmas about the `snapPhoto` retry loop
-/

/-- The retry loop issues at most as many `take_photo` commands as it has
loop iterations left, and every inter-attempt backoff it records is the fixed
1000 ms wait. -/
lemma snapPhotoGo_calls_le (ok : Nat → Bool) :
    ∀ (r a : Nat),
      (snapPhotoGo ok a r).2.1 ≤ r
      ∧ (snapPhotoGo ok a r).2.2.all (fun d => d == 1000) = true := by
  intro r
  induction r with
  | zero => intro a; exact ⟨Nat.le_refl 0, rfl⟩
  | succ n ih =>
    intro a
    by_cases hok : ok a = true
    · have hred : snapPhotoGo ok a (n + 1) = (Except.ok true, 1, []) := by
        simp [snapPhotoGo, hok]
      rw [hred]
      exact ⟨Nat.succ_le_succ (Nat.zero_le n), rfl⟩
    · have hok' : ok a = false := by simpa using hok
      by_cases hn : n = 0
      · subst hn
        have hred : snapPhotoGo ok a 1 = (Except.error "All photo attempts failed", 1, []) := by
          simp [snapPhotoGo, hok']
        rw [hred]
        exact ⟨Nat.le_refl 1, rfl⟩
      · have hrw : snapPhotoGo ok a (n + 1)
            = ((snapPhotoGo ok (a + 1) n).1, (snapPhotoGo ok (a + 1) n).2.1 + 1,
               1000 :: (snapPhotoGo ok (a + 1) n).2.2) := by
          simp [snapPhotoGo, hok', hn]
        rw [hrw]
        exact ⟨Nat.succ_le_succ (ih (a + 1)).1, by simpa using (ih (a + 1)).2⟩

/-- Full characterisation of the retry loop on at least one attempt: it never
reaches the trailing `return false`; it returns `true` exactly when some
attempt in its window succeeds; it throws exactly when every attempt fails;
and the number of `take_photo` commands is the position of the first success,
capped at the attempt budget. -/
lemma snapPhotoGo_spec (ok : Nat → Bool) :
    ∀ (r a : Nat), 1 ≤ r →
      (snapPhotoGo ok a r).1 ≠ Except.ok false
      ∧ ((snapPhotoGo ok a r).1 = Except.ok true ↔ (List.range' a r).any ok = true)
      ∧ ((snapPhotoGo ok a r).1 = Except.error "All photo attempts failed"
          ↔ (List.range' a r).all (fun i => !(ok i)) = true)
      ∧ (snapPhotoGo ok a r).2.1
          = min r (((List.range' a r).takeWhile (fun i => !(ok i))).length + 1) := by
  intro r
  induction r with
  | zero => intro a h; omega
  | succ n ih =>
    intro a _
    by_cases hok : ok a = true
    · have hred : snapPhotoGo ok a (n + 1) = (Except.ok true, 1, []) := by
        simp [snapPhotoGo, hok]
      rw [hred, List.range'_succ]
      refine ⟨by simp, by simp [hok], by simp [hok], ?_⟩
      have htw : List.takeWhile (fun i => !(ok i)) (a :: List.range' (a + 1) n) = [] := by
        simp [List.takeWhile_cons, hok]
      rw [htw]
      simp only [List.length_nil, Nat.zero_add]
      omega
    · have hok' : ok a = false := by simpa using hok
      by_cases hn : n = 0
      · subst hn
        have hred : snapPhotoGo ok a 1 = (Except.error "All photo attempts failed", 1, []) := by
          simp [snapPhotoGo, hok']
        rw [hred, List.range'_one]
        refine ⟨by simp, by simp [hok'], by simp [hok'], ?_⟩
        have htw : List.takeWhile (fun i => !(ok i)) [a] = [a] := by
          simp [List.takeWhile_cons, hok']
        rw [htw]
        simp
      · have ihh := ih (a + 1) (by omega)
        have hrw : snapPhotoGo ok a (n + 1)
            = ((snapPhotoGo ok (a + 1) n).1, (snapPhotoGo ok (a + 1) n).2.1 + 1,
               1000 :: (snapPhotoGo ok (a + 1) n).2.2) := by
          simp [snapPhotoGo, hok', hn]
        rw [hrw, List.range'_succ]
        refine ⟨ihh.1, ?_, ?_, ?_⟩
        · simpa [hok'] using ihh.2.1
        · simpa [hok'] using ihh.2.2.1
        · have htw : List.takeWhile (fun i => !(ok i)) (a :: List.range' (a + 1) n)
              = a :: List.takeWhile (fun i => !(ok i)) (List.range' (a + 1) n) := by
            simp [List.takeWhile_cons, hok']
          rw [htw]
          simp only [List.length_cons]
          rw [ihh.2.2.2]
          omega

/-!
## C7 — retry bound
-/

/-- Claim C7: the layer-trigger path calls `snapPhoto(3)`, so a single
scheduled trigger issues at most `maxAttempts = 3` `take_photo` commands;
more generally `snapPhoto(maxRetries)` performs at most `maxRetries`
attempts, every inter-attempt backoff is the fixed 1000 ms wait, and when all
attempts fail the loop stops (throws) exactly at the `maxRetries`-th call. -/
theorem retry_bound :
    ∀ (ok : Nat → Bool) (rec : Bool) (L : Nat) (maxRetries : Nat),
      (triggerGoProShutter true true L ok rec).captureCalls ≤ 3
      ∧ (snapPhoto ok maxRetries).2.1 ≤ maxRetries
      ∧ (snapPhoto ok maxRetries).2.2.all (fun d => d == 1000) = true := by
  intro ok rec L maxRetries
  refine ⟨?_, (snapPhotoGo_calls_le ok maxRetries 1).1, (snapPhotoGo_calls_le ok maxRetries 1).2⟩
  have hb := (snapPhotoGo_calls_le ok 3 1).1
  simp only [triggerGoProShutter, Bool.not_true, Bool.false_eq_true, if_false]
  cases hsnap : (snapPhoto ok 3).1 with
  | ok b => simpa using hb
  | error msg => simpa using hb

/-!
## C8 — busy recovery and non-fatality
-/

/-- Claim C8: when every one of the three capture attempts of a scheduled
trigger fails, the shutter routine makes exactly one busy-recovery call
(regardless of whether that recovery itself succeeds), does not re-enter the
retry loop (exactly 3 capture calls in total), and surfaces the terminal
failure only as the `lastGoProStatus` string — the routine is total, so no
exception escapes into the telemetry-ingestion path. -/
theorem busy_recovery_once (L : Nat) (ok : Nat → Bool) (rec : Bool)
    (h1 : ok 1 = false) (h2 : ok 2 = false) (h3 : ok 3 = false) :
    (triggerGoProShutter true true L ok rec).recoveryCalls = 1
    ∧ (triggerGoProShutter true true L ok rec).captureCalls = 3
    ∧ (triggerGoProShutter true true L ok rec).lastGoProStatus
        = "🛑 BLE snap failed: All photo attempts failed" := by
  have hsnap : snapPhoto ok 3
      = (Except.error "All photo attempts failed", 3, [1000, 1000]) := by
    simp [snapPhoto, snapPhotoGo, h1, h2, h3]
  refine ⟨?_, ?_, ?_⟩ <;> simp [triggerGoProShutter, hsnap]

/-- Witness for C8: with every attempt failing concretely, the outcome is
one recovery call, three capture calls, and the failure status string. -/
theorem busy_recovery_once_witness :
    (triggerGoProShutter true true 5 (fun _ => false) true).recoveryCalls = 1
    ∧ (triggerGoProShutter true true 5 (fun _ => false) true).captureCalls = 3
    ∧ (triggerGoProShutter true true 5 (fun _ => false) true).lastGoProStatus
        = "🛑 BLE snap failed: All photo attempts failed" :=
  busy_recovery_once 5 (fun _ => false) true rfl rfl rfl

/-!
## C10 — `snapPhoto` result trichotomy
-/

/-- Claim C10: for `maxRetries ≥ 1`, `snapPhoto` returns `true` exactly when
one of the attempts `1 .. maxRetries` succeeds (issuing commands up to the
first success only), throws exactly when all of them fail, and its trailing
`return false` exit is unreachable, so callers can never observe `false`. -/
theorem snapPhoto_trichotomy (ok : Nat → Bool) (maxRetries : Nat) (h : 1 ≤ maxRetries) :
    (snapPhoto ok maxRetries).1 ≠ Except.ok false
    ∧ ((snapPhoto ok maxRetries).1 = Except.ok true
        ↔ (List.range' 1 maxRetries).any ok = true)
    ∧ ((snapPhoto ok maxRetries).1 = Except.error "All photo attempts failed"
        ↔ (List.range' 1 maxRetries).all (fun i => !(ok i)) = true)
    ∧ (snapPhoto ok maxRetries).2.1
        = min maxRetries
            (((List.range' 1 maxRetries).takeWhile (fun i => !(ok i))).length + 1) :=
  snapPhotoGo_spec ok maxRetries 1 h

/-- Witness for C10 at a concrete input: attempts succeed from attempt 2 on,
with a budget of 3 attempts the result is never the `false` return. -/
theorem snapPhoto_trichotomy_witness :
    (snapPhoto (fun i => decide (2 ≤ i)) 3).1 ≠ Except.ok false :=
  (snapPhoto_trichotomy (fun i => decide (2 ≤ i)) 3 (by decide)).1

end LayerSync
